import Mathlib

/-!
A shallow embedding of the `wiserHub` class of `wiserHeatingAPI/wiserHub.py`,
restricted to the operations the verified properties are about:
`refreshData`, `checkHubData`, the read accessors (`getRooms`, `getRoom`,
`getDevice`, `getHeatingChannels`, `getHeatingRelayStatus`, `getHubData`,
`getWiserHubName`, `getMACAddress`), the private temperature helpers and the
mutators `setRoomTemperature` and `setRoomMode`.

Modelling conventions:
- Python dictionaries coming from `json` are modelled as records with
  `Option` fields, so that `dict.get(key)` returning `None` becomes `none`.
- The HTTP transport is an explicit oracle: `RefreshEnv` carries the
  responses of the two GET requests a refresh issues, and the mutators take
  a function `Nat → Nat` giving the HTTP status of the successive PATCH
  requests they issue.  The mutators also return the ordered list of PATCH
  requests they actually sent.
- Python exceptions are modelled with `Except PyErr`; mutation of `self` is
  explicit state passing on `WiserHubState`.  An operation that both mutates
  state and can raise returns `WiserHubState × Except PyErr α`, the state
  reflecting all assignments performed before the raise.
- Temperatures are rationals; Python `int()` is truncation toward zero and
  Python `round()` is round-half-to-even, both defined below.
-/

/-- Exception kinds the modelled code paths can raise: the `Error`
subclasses declared at the top of the source file, plus the Python built-in
exceptions (`ValueError`, `AttributeError`, `TypeError`) that some paths
raise. -/
inductive PyErr where
  | WiserNoDevicesFound
  | WiserNotFound
  | WiserNoRoomsFound
  | WiserNoHotWaterFound
  | WiserNoHeatingFound
  | WiserRESTException
  | WiserHubDataNull
  | WiserHubAuthenticationException
  | WiserHubTimeoutException
  | ValueError
  | AttributeError
  | TypeError
deriving DecidableEq

/-- One record of the `Room` section.  Only the fields the modelled
operations read are kept; each is optional because the source accesses them
with `dict.get`. -/
structure RoomRec where
  id : Option Int
  Name : Option String
  ScheduleId : Option Int
  ScheduledSetPoint : Option Int
  RoomStatId : Option Int
  SmartValveIds : Option (List Int)
deriving DecidableEq

/-- One record of the `Device` section; the source only reads its `id`. -/
structure DeviceRec where
  id : Option Int
deriving DecidableEq

/-- One record of the `HeatingChannel` section. -/
structure HeatingChannelRec where
  id : Option Int
  HeatingRelayState : Option String
deriving DecidableEq

/-- The primary state document fetched from the hub (`self.wiserHubData`):
a JSON object whose sections are looked up with `dict.get`, hence optional.
Only the sections the modelled operations read are kept. -/
structure HubDoc where
  Room : Option (List RoomRec)
  Device : Option (List DeviceRec)
  HeatingChannel : Option (List HeatingChannelRec)
deriving DecidableEq

/-- The `Station` object of the network-identity document. -/
structure StationRec where
  MdnsHostname : Option String
  MacAddress : Option String
deriving DecidableEq

/-- The network-identity document fetched from the hub. -/
structure NetDoc where
  Station : Option StationRec
deriving DecidableEq

/-- Value stored in `device2roomMap`: the dict
`{"roomId": room.get("id"), "roomName": room.get("Name")}`. -/
structure RoomRef where
  roomId : Option Int
  roomName : Option String
deriving DecidableEq

/-- The mutable attributes of a `wiserHub` instance.  The source has two
distinct attributes differing only in capitalisation: `wiserNetworkData`
(assigned `None` in `__init__`, read by `getWiserHubName`/`getMACAddress`)
and `WiserNetworkData` (assigned in `refreshData`, read nowhere).  The
latter does not exist before the first successful refresh; it is modelled
as an `Option` field starting at `none`, which is adequate because no code
path reads it. -/
structure WiserHubState where
  wiserHubData : Option HubDoc
  wiserNetworkData : Option NetDoc
  WiserNetworkData : Option NetDoc
  device2roomMap : List (Int × RoomRef)
deriving DecidableEq

/-- The attribute values set by `__init__` before it triggers the first
refresh. -/
def initState : WiserHubState :=
  { wiserHubData := none
    wiserNetworkData := none
    WiserNetworkData := none
    device2roomMap := [] }

/- Temperature constants and helpers. -/

def TEMP_MINIMUM : ℚ := 5
def TEMP_MAXIMUM : ℚ := 30
def TEMP_OFF : ℚ := -20

/-- Python `int()` on a number: truncation toward zero. -/
def pyInt (q : ℚ) : Int := if 0 ≤ q then ⌊q⌋ else ⌈q⌉

/-- The private helper `__toWiserTemp`: `int(temp * 10)`. -/
def toWiserTemp (temp : ℚ) : Int := pyInt (temp * 10)

/-- Python `round()` to an integer: round half to even. -/
def pyRound (q : ℚ) : Int :=
  if q - ⌊q⌋ < 1 / 2 then ⌊q⌋
  else if 1 / 2 < q - ⌊q⌋ then ⌊q⌋ + 1
  else if ⌊q⌋ % 2 = 0 then ⌊q⌋ else ⌊q⌋ + 1

/-- Python `round(q, 1)`: round to one decimal place. -/
def pyRound1 (q : ℚ) : ℚ := (pyRound (q * 10) : ℚ) / 10

/-- The private helper `__fromWiserTemp`: `round(temp / 10, 1)`. -/
def fromWiserTemp (temp : Int) : ℚ := pyRound1 ((temp : ℚ) / 10)

/-- The private helper `__checkTempRange`. -/
def checkTempRange (temp : ℚ) : Bool :=
  if temp ≠ TEMP_OFF ∧ (temp < TEMP_MINIMUM ∨ temp > TEMP_MAXIMUM) then false
  else true

/- Transport oracle. -/

/-- Outcome of one `requests.get` call: a raised `requests.Timeout`, a
raised `requests.ConnectionError`, or a response with an HTTP status and an
already-parsed body. -/
inductive HttpResult (α : Type) where
  | timeout
  | connError
  | ok (status : Nat) (body : α)

/-- The transport's responses to the two GET requests `refreshData`
issues: the primary state document and the network-identity document. -/
structure RefreshEnv where
  domainResp : HttpResult HubDoc
  networkResp : HttpResult NetDoc

/- `device2roomMap` is a Python dict keyed by device id; it is modelled as
an association list with insert-or-overwrite assignment. -/

/-- Python dict assignment `m[k] = v`: overwrite in place if the key is
present, otherwise append. -/
def dictInsert (k : Int) (v : RoomRef) : List (Int × RoomRef) → List (Int × RoomRef)
  | [] => [(k, v)]
  | (k', v') :: rest => if k' = k then (k, v) :: rest else (k', v') :: dictInsert k v rest

/-- Python dict lookup `m.get(k)`. -/
def dictLookup (k : Int) : List (Int × RoomRef) → Option RoomRef
  | [] => none
  | (k', v') :: rest => if k' = k then some v' else dictLookup k rest

/-- The body of the per-room loop in `refreshData`: insert the room's
`RoomStatId` and every id of `SmartValveIds` into `device2roomMap`. -/
def updateRoomMap (m : List (Int × RoomRef)) (room : RoomRec) : List (Int × RoomRef) :=
  let ref : RoomRef := { roomId := room.id, roomName := room.Name }
  let m1 := match room.RoomStatId with
    | some d => dictInsert d ref m
    | none => m
  match room.SmartValveIds with
  | some vs => vs.foldl (fun acc v => dictInsert v ref acc) m1
  | none => m1

/-- The whole `for room in self.getRooms()` loop of `refreshData`
(`getRooms` at that point returns the just-assigned document's `Room`
section); when the section is absent the loop is skipped. -/
def rebuildMap (m : List (Int × RoomRef)) (doc : HubDoc) : List (Int × RoomRef) :=
  match doc.Room with
  | none => m
  | some rooms => rooms.foldl updateRoomMap m

/-- `refreshData`.  The try-block: GET the domain document,
`raise_for_status` (which raises `requests.HTTPError` for statuses in the
4xx/5xx range), assign `self.wiserHubData`, run the `device2roomMap` loop,
GET the network document and assign `self.WiserNetworkData` (capital `W`).
The handlers: `requests.Timeout` is re-raised as
`WiserHubTimeoutException`; `requests.HTTPError` is handled by reading
`self.wiserHubData.status_code`, and since `self.wiserHubData` is either
`None` or a parsed JSON document — never a response object — that attribute
access itself raises `AttributeError` before any of the intended
status-specific exceptions can be raised; `requests.ConnectionError` is
caught and only logged, after which `self.wiserHubData` is returned. -/
def refreshData (st : WiserHubState) (env : RefreshEnv) :
    WiserHubState × Except PyErr (Option HubDoc) :=
  match env.domainResp with
  | .timeout => (st, .error .WiserHubTimeoutException)
  | .connError => (st, .ok st.wiserHubData)
  | .ok status doc =>
    if 400 ≤ status then (st, .error .AttributeError)
    else
      let st1 : WiserHubState :=
        { st with
          wiserHubData := some doc
          device2roomMap := rebuildMap st.device2roomMap doc }
      match env.networkResp with
      | .timeout => (st1, .error .WiserHubTimeoutException)
      | .connError => (st1, .ok (some doc))
      | .ok _ net => ({ st1 with WiserNetworkData := some net }, .ok (some doc))

/-- `checkHubData`: refresh if no document is cached, and raise
`WiserHubDataNull` if one still is not. -/
def checkHubData (st : WiserHubState) (env : RefreshEnv) :
    WiserHubState × Except PyErr Unit :=
  match st.wiserHubData with
  | some _ => (st, .ok ())
  | none =>
    match refreshData st env with
    | (st', .error e) => (st', .error e)
    | (st', .ok _) =>
      match st'.wiserHubData with
      | none => (st', .error .WiserHubDataNull)
      | some _ => (st', .ok ())

/-- `getHubData`. -/
def getHubData (st : WiserHubState) (env : RefreshEnv) :
    WiserHubState × Except PyErr (Option HubDoc) :=
  match checkHubData st env with
  | (st', .error e) => (st', .error e)
  | (st', .ok _) => (st', .ok st'.wiserHubData)

/-- `getRooms`. -/
def getRooms (st : WiserHubState) (env : RefreshEnv) :
    WiserHubState × Except PyErr (Option (List RoomRec)) :=
  match checkHubData st env with
  | (st', .error e) => (st', .error e)
  | (st', .ok _) =>
    match st'.wiserHubData with
    | none => (st', .error .AttributeError)
    | some doc => (st', .ok doc.Room)

/-- `getRoom`: `WiserNoRoomsFound` when the `Room` section is absent, a
linear scan comparing `room.get("id")` with the requested id, and
`WiserNotFound` when the scan finds nothing. -/
def getRoom (st : WiserHubState) (env : RefreshEnv) (roomId : Int) :
    WiserHubState × Except PyErr RoomRec :=
  match checkHubData st env with
  | (st', .error e) => (st', .error e)
  | (st', .ok _) =>
    match st'.wiserHubData with
    | none => (st', .error .AttributeError)
    | some doc =>
      match doc.Room with
      | none => (st', .error .WiserNoRoomsFound)
      | some rooms =>
        match rooms.find? (fun r => r.id = some roomId) with
        | some r => (st', .ok r)
        | none => (st', .error .WiserNotFound)

/-- `getDevice`: note the source raises `WiserNoRoomsFound` — the
rooms-specific error, with a rooms-specific message — when the `Device`
section is absent. -/
def getDevice (st : WiserHubState) (env : RefreshEnv) (deviceId : Int) :
    WiserHubState × Except PyErr DeviceRec :=
  match checkHubData st env with
  | (st', .error e) => (st', .error e)
  | (st', .ok _) =>
    match st'.wiserHubData with
    | none => (st', .error .AttributeError)
    | some doc =>
      match doc.Device with
      | none => (st', .error .WiserNoRoomsFound)
      | some devs =>
        match devs.find? (fun d => d.id = some deviceId) with
        | some d => (st', .ok d)
        | none => (st', .error .WiserNotFound)

/-- `getHeatingChannels`. -/
def getHeatingChannels (st : WiserHubState) (env : RefreshEnv) :
    WiserHubState × Except PyErr (Option (List HeatingChannelRec)) :=
  match checkHubData st env with
  | (st', .error e) => (st', .error e)
  | (st', .ok _) =>
    match st'.wiserHubData with
    | none => (st', .error .AttributeError)
    | some doc => (st', .ok doc.HeatingChannel)

/-- `getHeatingRelayStatus`: its own `checkHubData` call is commented out
in the source, but `getHeatingChannels` performs the check.  The `for`
loop over the channels starts from `"Off"` and switches to `"On"` on any
channel whose `HeatingRelayState` is `"On"`; when the `HeatingChannel`
section is absent, `getHeatingChannels` returns `None` and the `for` loop
raises `TypeError` (iteration over `None`). -/
def getHeatingRelayStatus (st : WiserHubState) (env : RefreshEnv) :
    WiserHubState × Except PyErr String :=
  match getHeatingChannels st env with
  | (st', .error e) => (st', .error e)
  | (st', .ok none) => (st', .error .TypeError)
  | (st', .ok (some chans)) =>
    (st', .ok (chans.foldl
      (fun s c => if c.HeatingRelayState = some "On" then "On" else s) "Off"))

/-- `getWiserHubName`: reads `self.wiserNetworkData` (lowercase `w`,
still `None` from `__init__`) and calls `.get("Station")` on it; calling a
method on `None` raises `AttributeError`, as does `.get` on an absent
`Station`. -/
def getWiserHubName (st : WiserHubState) : Except PyErr (Option String) :=
  match st.wiserNetworkData with
  | none => .error .AttributeError
  | some net =>
    match net.Station with
    | none => .error .AttributeError
    | some stn => .ok stn.MdnsHostname

/-- `getMACAddress`: same shape as `getWiserHubName`. -/
def getMACAddress (st : WiserHubState) : Except PyErr (Option String) :=
  match st.wiserNetworkData with
  | none => .error .AttributeError
  | some net =>
    match net.Station with
    | none => .error .AttributeError
    | some stn => .ok stn.MacAddress

/- PATCH requests and their JSON bodies. -/

/-- A JSON value, rich enough for every patch body the source builds. -/
inductive JVal where
  | str : String → JVal
  | int : Int → JVal
  | obj : List (String × JVal) → JVal

/-- One `requests.patch` call: the URL it targets and its `json=` body. -/
structure Request where
  url : String
  body : JVal

/-- The format string `WISERROOM` (and the textually identical
`WISERSETROOMTEMP`) applied to the hub IP and a room id. -/
def WISERROOM (hubIP : String) (roomId : Int) : String :=
  "http://" ++ hubIP ++ "//data/domain/Room/" ++ toString roomId

/-- Python `str.lower()` (ASCII case folding suffices for the mode
strings involved), as a character-wise map. -/
def pyLower (s : String) : String := ⟨s.data.map Char.toLower⟩

/-- The `cancelBoostPostData` body of `setRoomMode`: the zero-duration,
zero-setpoint override cancellation. -/
def cancelBoostPostData : JVal :=
  .obj [("RequestOverride", .obj
    [("Type", .str "None"), ("DurationMinutes", .int 0),
     ("SetPoint", .int 0), ("Originator", .str "App")])]

/-- The `patchData` body built by the `auto` branch of `setRoomMode`. -/
def autoPatchData : JVal := .obj [("Mode", .str "Auto")]

/-- The `patchData` body built by the `boost` branch of `setRoomMode`. -/
def boostPatchData (boostTempTime : Int) (boostTemp : ℚ) : JVal :=
  .obj [("RequestOverride", .obj
    [("Type", .str "Manual"), ("DurationMinutes", .int boostTempTime),
     ("SetPoint", .int (toWiserTemp boostTemp)), ("Originator", .str "App")])]

/-- The `patchData` body built by the `manual` branch of `setRoomMode`. -/
def manualPatchData (setTemp : ℚ) : JVal :=
  .obj [("Mode", .str "Manual"),
        ("RequestOverride", .obj
          [("Type", .str "Manual"), ("SetPoint", .int (toWiserTemp setTemp))])]

/-- The `patchData` body built by the `off` branch of `setRoomMode`. -/
def offPatchData : JVal :=
  .obj [("Mode", .str "Manual"),
        ("RequestOverride", .obj
          [("Type", .str "Manual"), ("SetPoint", .int (toWiserTemp TEMP_OFF))])]

/-- The `patchData` body built by `setRoomTemperature`. -/
def setRoomTempPatchData (temperature : ℚ) : JVal :=
  .obj [("RequestOverride", .obj
    [("Type", .str "Manual"), ("SetPoint", .int (toWiserTemp temperature))])]

/-- The tail of `setRoomMode` after `patchData` is computed: unless the
mode is `boost`, first PATCH `cancelBoostPostData` to the room resource and
raise `WiserRESTException` if its status is not 200; then PATCH `patchData`
to the room resource, raising `WiserRESTException` on a non-200 status.
`ps n` is the transport's status for the n-th PATCH issued by this call;
the returned list holds the requests actually sent, in order. -/
def sendRoomPatches (st : WiserHubState) (ps : Nat → Nat) (hubIP : String)
    (roomId : Int) (isBoost : Bool) (patchData : JVal) :
    WiserHubState × List Request × Except PyErr Unit :=
  if isBoost then
    let req : Request := { url := WISERROOM hubIP roomId, body := patchData }
    if ps 0 = 200 then (st, [req], .ok ())
    else (st, [req], .error .WiserRESTException)
  else
    let creq : Request := { url := WISERROOM hubIP roomId, body := cancelBoostPostData }
    if ps 0 ≠ 200 then (st, [creq], .error .WiserRESTException)
    else
      let req : Request := { url := WISERROOM hubIP roomId, body := patchData }
      if ps 1 = 200 then (st, [creq, req], .ok ())
      else (st, [creq, req], .error .WiserRESTException)

/-- `setRoomMode`.  The mode dispatch on `mode.lower()` builds `patchData`:
`auto` a schedule-mode body; `boost` validates the boost temperature
against `[TEMP_MINIMUM, TEMP_MAXIMUM]` (raising `ValueError`) and builds a
timed manual override; `manual` reads the room's cached
`ScheduledSetPoint` via `getRoom` (so `checkHubData` may refresh), decodes
it with `__fromWiserTemp` — raising `TypeError` when the field is absent,
since `round(None / 10, 1)` is a `TypeError` — clamps it up to
`TEMP_MINIMUM`, and builds an untimed manual override; `off` builds a
manual override at `TEMP_OFF`; anything else raises `ValueError` before
any PATCH.  Then `sendRoomPatches` issues the cancellation (unless boost)
followed by the mode-specific PATCH. -/
def setRoomMode (st : WiserHubState) (env : RefreshEnv) (ps : Nat → Nat)
    (hubIP : String) (roomId : Int) (mode : String)
    (boostTemp : ℚ) (boostTempTime : Int) :
    WiserHubState × List Request × Except PyErr Unit :=
  if pyLower mode = "auto" then
    sendRoomPatches st ps hubIP roomId false autoPatchData
  else if pyLower mode = "boost" then
    if boostTemp < TEMP_MINIMUM ∨ boostTemp > TEMP_MAXIMUM then
      (st, [], .error .ValueError)
    else
      sendRoomPatches st ps hubIP roomId true (boostPatchData boostTempTime boostTemp)
  else if pyLower mode = "manual" then
    match getRoom st env roomId with
    | (st', .error e) => (st', [], .error e)
    | (st', .ok room) =>
      match room.ScheduledSetPoint with
      | none => (st', [], .error .TypeError)
      | some ssp =>
        let setTemp := fromWiserTemp ssp
        let setTemp := if setTemp ≥ TEMP_MINIMUM then setTemp else TEMP_MINIMUM
        sendRoomPatches st' ps hubIP roomId false (manualPatchData setTemp)
  else if pyLower mode = "off" then
    sendRoomPatches st ps hubIP roomId false offPatchData
  else
    (st, [], .error .ValueError)

/-- `setRoomTemperature`: validate with `__checkTempRange`, raising
`ValueError` before any network call, then PATCH a manual override to the
room resource, raising `WiserRESTException` on a non-200 status. -/
def setRoomTemperature (ps : Nat → Nat) (hubIP : String) (roomId : Int)
    (temperature : ℚ) : List Request × Except PyErr Unit :=
  if checkTempRange temperature = false then ([], .error .ValueError)
  else
    let req : Request := { url := WISERROOM hubIP roomId
                           body := setRoomTempPatchData temperature }
    if ps 0 = 200 then ([req], .ok ())
    else ([req], .error .WiserRESTException)

/- Spec-side helper definitions used to state the claims. -/

/-- The device ids a single room contributes to the device-room index: its
`RoomStatId`, if present, and every id of `SmartValveIds`, if present. -/
def roomDeviceIds (room : RoomRec) : List Int :=
  (match room.RoomStatId with | some d => [d] | none => []) ++
  (match room.SmartValveIds with | some vs => vs | none => [])

/-- All device ids appearing in some room of a document. -/
def docDeviceIds (doc : HubDoc) : List Int :=
  match doc.Room with
  | none => []
  | some rooms => rooms.flatMap roomDeviceIds

/-- Modelled from the spec, for comparison with `toWiserTemp`: the
encoding the specification describes, `encoded = round(celsius * 10)`. -/
def encodeSpec (celsius : ℚ) : Int := pyRound (celsius * 10)

/- Concrete fixtures used by witnesses and counterexamples. -/

/-- A room with a room stat (device id 7). -/
def roomA : RoomRec :=
  { id := some 1, Name := some "Lounge", ScheduleId := some 4
    ScheduledSetPoint := some 180, RoomStatId := some 7, SmartValveIds := none }

/-- The same room with its room stat removed. -/
def roomB : RoomRec :=
  { roomA with RoomStatId := none }

/-- A room whose cached `ScheduledSetPoint` decodes to 3.0 °C. -/
def roomC : RoomRec :=
  { id := some 2, Name := some "Attic", ScheduleId := some 5
    ScheduledSetPoint := some 30, RoomStatId := none, SmartValveIds := some [11, 12] }

def netA : NetDoc := { Station := some { MdnsHostname := some "WiserHeat", MacAddress := some "00:11:22" } }

def docA : HubDoc := { Room := some [roomA], Device := none, HeatingChannel := none }

def docB : HubDoc := { Room := some [roomB], Device := none, HeatingChannel := none }

/-- A document with an empty (but present) `Room` section and no `Device`
section. -/
def docEmptyRooms : HubDoc := { Room := some [], Device := none, HeatingChannel := none }

/-- A document with two heating channels, one of them reporting `"On"`. -/
def docHeat : HubDoc :=
  { Room := some [roomC], Device := none
    HeatingChannel := some
      [ { id := some 1, HeatingRelayState := some "Off" }
      , { id := some 2, HeatingRelayState := some "On" } ] }

def envA : RefreshEnv := { domainResp := .ok 200 docA, networkResp := .ok 200 netA }

def envB : RefreshEnv := { domainResp := .ok 200 docB, networkResp := .ok 200 netA }

def envConn : RefreshEnv := { domainResp := .connError, networkResp := .connError }

def envTimeout : RefreshEnv := { domainResp := .timeout, networkResp := .timeout }

/-- A state holding `docA` as its cached document. -/
def stDocA : WiserHubState := { initState with wiserHubData := some docA }

/-- A state holding the empty-rooms document. -/
def stEmptyRooms : WiserHubState := { initState with wiserHubData := some docEmptyRooms }

/-- A state holding the heating-channel document. -/
def stHeat : WiserHubState := { initState with wiserHubData := some docHeat }

/- Helper lemmas about the dict model. -/

theorem dictLookup_dictInsert (k key : Int) (v : RoomRef) (m : List (Int × RoomRef)) :
    dictLookup k (dictInsert key v m) = if key = k then some v else dictLookup k m := by
  induction m with
  | nil => simp [dictInsert, dictLookup]
  | cons a rest ih =>
    obtain ⟨a1, a2⟩ := a
    by_cases h1 : a1 = key
    · subst h1
      by_cases h2 : a1 = k <;> simp [dictInsert, dictLookup, h2]
    · by_cases h2 : a1 = k
      · have hk : ¬ key = k := fun h => h1 (h2.trans h.symm)
        have hk2 : ¬ k = key := fun h => hk h.symm
        simp [dictInsert, dictLookup, h1, h2, hk, hk2]
      · simp [dictInsert, dictLookup, h1, h2, ih]

theorem dictLookup_foldl_insert (vs : List Int) (ref : RoomRef) (m : List (Int × RoomRef)) (k : Int) :
    dictLookup k (vs.foldl (fun acc v => dictInsert v ref acc) m) ≠ none ↔
      k ∈ vs ∨ dictLookup k m ≠ none := by
  induction vs generalizing m with
  | nil => simp
  | cons v rest ih =>
    rw [List.foldl_cons, ih]
    rw [dictLookup_dictInsert]
    by_cases h : v = k <;> (simp [h]; try tauto)

theorem dictLookup_updateRoomMap (room : RoomRec) (m : List (Int × RoomRef)) (k : Int) :
    dictLookup k (updateRoomMap m room) ≠ none ↔
      k ∈ roomDeviceIds room ∨ dictLookup k m ≠ none := by
  unfold updateRoomMap roomDeviceIds
  cases hs : room.RoomStatId with
  | none =>
    cases hv : room.SmartValveIds with
    | none => simp
    | some vs => simp [dictLookup_foldl_insert]
  | some d =>
    cases hv : room.SmartValveIds with
    | none =>
      simp only [List.append_nil, List.mem_singleton]
      rw [dictLookup_dictInsert]
      by_cases h : d = k <;> (simp [h]; try tauto)
    | some vs =>
      simp only [List.cons_append, List.nil_append, List.mem_cons]
      rw [dictLookup_foldl_insert, dictLookup_dictInsert]
      by_cases h : d = k <;> (simp [h, eq_comm]; try tauto)

theorem dictLookup_foldl_updateRoomMap (rooms : List RoomRec) (m : List (Int × RoomRef)) (k : Int) :
    dictLookup k (rooms.foldl updateRoomMap m) ≠ none ↔
      (∃ r ∈ rooms, k ∈ roomDeviceIds r) ∨ dictLookup k m ≠ none := by
  induction rooms generalizing m with
  | nil => simp
  | cons r rest ih =>
    rw [List.foldl_cons, ih, dictLookup_updateRoomMap]
    simp only [List.mem_cons]
    constructor
    · rintro (⟨r', hr', hk⟩ | (hk | hk))
      · exact Or.inl ⟨r', Or.inr hr', hk⟩
      · exact Or.inl ⟨r, Or.inl rfl, hk⟩
      · exact Or.inr hk
    · rintro (⟨r', (rfl | hr'), hk⟩ | hk)
      · exact Or.inr (Or.inl hk)
      · exact Or.inl ⟨r', hr', hk⟩
      · exact Or.inr (Or.inr hk)

theorem dictLookup_rebuildMap (doc : HubDoc) (m : List (Int × RoomRef)) (k : Int) :
    dictLookup k (rebuildMap m doc) ≠ none ↔
      k ∈ docDeviceIds doc ∨ dictLookup k m ≠ none := by
  unfold rebuildMap docDeviceIds
  cases hr : doc.Room with
  | none => simp
  | some rooms =>
    rw [dictLookup_foldl_updateRoomMap]
    simp [List.mem_flatMap]

/-- The relay-status fold of `getHeatingRelayStatus`, for any starting
accumulator, is `"On"` exactly when some channel reports `"On"`. -/
theorem relay_foldl_eq_any (chans : List HeatingChannelRec) (s : String) :
    chans.foldl (fun s c => if c.HeatingRelayState = some "On" then "On" else s) s =
      if chans.any (fun c => c.HeatingRelayState = some "On") then "On" else s := by
  induction chans generalizing s with
  | nil => simp
  | cons c rest ih =>
    rw [List.foldl_cons, ih]
    by_cases h : c.HeatingRelayState = some "On" <;> simp [h]

/- Claim theorems. -/

/-- C6 counterexample: at 5.75 °C the code sends `int(57.5) = 57`, while
`round(57.5) = 58` (57.5 is exactly representable, also in binary floating
point, and Python rounds the half to the even neighbour 58), so
`encoded = round(celsius * 10)` fails on this input. -/
theorem toWiserTemp_diverges_from_round_cex :
    toWiserTemp (23 / 4) = 57 ∧ encodeSpec (23 / 4) = 58 := by
  constructor
  · norm_num [toWiserTemp, pyInt]
  · norm_num [encodeSpec, pyRound]

/-- C6 (amended): the temperature encoding truncates toward zero —
`encoded = int(celsius * 10)`, which equals `⌊celsius * 10⌋` for
non-negative Celsius inputs — rather than rounding; decoding divides the
hub value by 10 and rounds to one decimal place, which on the integer
values the hub sends is exactly division by 10. -/
theorem toWiserTemp_truncates_fromWiserTemp_divides :
    (∀ q : ℚ, 0 ≤ q → toWiserTemp q = ⌊q * 10⌋) ∧
    (∀ n : Int, fromWiserTemp n = (n : ℚ) / 10) := by
  constructor
  · intro q hq
    have h10 : 0 ≤ q * 10 := by positivity
    simp [toWiserTemp, pyInt, h10]
  · intro n
    have h : ((n : ℚ) / 10) * 10 = (n : ℚ) := by field_simp
    have hf : (⌊(n : ℚ)⌋ : Int) = n := Int.floor_intCast n
    norm_num [fromWiserTemp, pyRound1, pyRound, h, hf]

/-- C6 witness: the amended theorem applied at 22 °C and at the hub value
55. -/
theorem toWiserTemp_truncates_witness :
    (0:ℚ) ≤ 22 ∧ toWiserTemp 22 = ⌊(22:ℚ) * 10⌋ ∧
    fromWiserTemp 55 = ((55 : Int) : ℚ) / 10 :=
  ⟨by norm_num, toWiserTemp_truncates_fromWiserTemp_divides.1 22 (by norm_num),
   toWiserTemp_truncates_fromWiserTemp_divides.2 55⟩

/-- C9: for every temperature outside [5, 30] other than the −20 off
sentinel, `setRoomTemperature` raises `ValueError` having issued no PATCH
request. -/
theorem setRoomTemperature_invalid_no_request (ps : Nat → Nat) (hubIP : String)
    (roomId : Int) (t : ℚ)
    (hout : t < TEMP_MINIMUM ∨ TEMP_MAXIMUM < t) (hoff : t ≠ TEMP_OFF) :
    setRoomTemperature ps hubIP roomId t = ([], .error .ValueError) := by
  have hc : checkTempRange t = false := by
    unfold checkTempRange
    rw [if_pos]
    exact ⟨hoff, hout⟩
  simp [setRoomTemperature, hc]

/-- C9 witness: the theorem applied at 50 °C. -/
theorem setRoomTemperature_invalid_witness :
    ((50:ℚ) < TEMP_MINIMUM ∨ TEMP_MAXIMUM < 50) ∧ (50:ℚ) ≠ TEMP_OFF ∧
    setRoomTemperature (fun _ => 200) "192.168.1.2" 1 50 = ([], .error .ValueError) :=
  ⟨Or.inr (by norm_num [TEMP_MAXIMUM]), by norm_num [TEMP_OFF],
   setRoomTemperature_invalid_no_request (fun _ => 200) "192.168.1.2" 1 50
     (Or.inr (by norm_num [TEMP_MAXIMUM])) (by norm_num [TEMP_OFF])⟩

/-- C2: whenever the domain GET returns a status in the error range
(`raise_for_status` raises), `refreshData` raises `AttributeError` — the
handler dereferences `status_code` on `self.wiserHubData`, which is `None`
or a parsed document — instead of the status-specific exceptions the
handler was written to raise. -/
theorem refreshData_httpError_attributeError (st : WiserHubState) (env : RefreshEnv)
    (status : Nat) (doc : HubDoc)
    (h1 : env.domainResp = .ok status doc) (h2 : 400 ≤ status) :
    refreshData st env = (st, .error .AttributeError) := by
  simp [refreshData, h1, h2]

/-- C2 witness: the theorem applied to a 401 response. -/
theorem refreshData_401_witness :
    400 ≤ 401 ∧
    refreshData initState { domainResp := .ok 401 docA, networkResp := .ok 200 netA } =
      (initState, .error .AttributeError) :=
  ⟨by norm_num,
   refreshData_httpError_attributeError initState
     { domainResp := .ok 401 docA, networkResp := .ok 200 netA } 401 docA rfl (by norm_num)⟩

/-- C1 counterexample: a refresh whose domain GET raises a connection
error returns `.ok` — no exception reaches the caller, contradicting the
claim that the failure is signalled as a `ConnectionFailure` error. -/
theorem refreshData_connError_swallowed_cex :
    refreshData stDocA envConn = (stDocA, .ok (some docA)) := rfl

/-- C1 (amended): a connection-level transport failure during refresh is
swallowed, not signalled: when the domain GET raises a connection error the
call returns the cached document with the state unchanged, so a previously
fetched document is left in place and remains readable via `getHubData`;
when only the network GET raises a connection error the call likewise
returns normally, with the freshly fetched domain document. -/
theorem refreshData_connectionFailure_swallowed (st : WiserHubState)
    (env env2 : RefreshEnv) :
    (env.domainResp = .connError →
      refreshData st env = (st, .ok st.wiserHubData) ∧
      (∀ doc, st.wiserHubData = some doc →
        (getHubData (refreshData st env).1 env2).2 = .ok (some doc))) ∧
    (∀ status doc, env.domainResp = .ok status doc → status < 400 →
      env.networkResp = .connError →
      (refreshData st env).2 = .ok (some doc)) := by
  constructor
  · intro hconn
    have hr : refreshData st env = (st, .ok st.wiserHubData) := by
      simp [refreshData, hconn]
    refine ⟨hr, ?_⟩
    intro doc hdoc
    rw [hr]
    simp [getHubData, checkHubData, hdoc]
  · intro status doc hok hs hconn
    simp [refreshData, hok, hconn, Nat.not_le.mpr hs]

/-- C1 witness: the amended theorem applied to a cached document and a
connection error on the domain GET. -/
theorem refreshData_connectionFailure_witness :
    envConn.domainResp = .connError ∧
    refreshData stDocA envConn = (stDocA, .ok stDocA.wiserHubData) ∧
    (getHubData (refreshData stDocA envConn).1 envA).2 = .ok (some docA) :=
  ⟨rfl,
   ((refreshData_connectionFailure_swallowed stDocA envConn envA).1 rfl).1,
   ((refreshData_connectionFailure_swallowed stDocA envConn envA).1 rfl).2 docA rfl⟩

/-- The sequence of hub states produced by running `refreshData` once per
environment in the list, starting from the constructor's initial state. -/
def refreshSeq (envs : List RefreshEnv) : WiserHubState :=
  envs.foldl (fun s e => (refreshData s e).1) initState

/-- C10: `refreshData` writes the fetched network-identity document to the
capitalised attribute `WiserNetworkData`, never to the lowercase
`wiserNetworkData` the accessors read; hence after any sequence of
refreshes from construction `wiserNetworkData` is still `None` and both
`getWiserHubName` and `getMACAddress` raise `AttributeError` by calling a
method on `None`. -/
theorem wiserNetworkData_never_populated :
    (∀ st env, (refreshData st env).1.wiserNetworkData = st.wiserNetworkData) ∧
    (∀ st env status doc nstatus net, env.domainResp = .ok status doc → status < 400 →
      env.networkResp = .ok nstatus net →
      (refreshData st env).1.WiserNetworkData = some net) ∧
    (∀ envs : List RefreshEnv,
      (refreshSeq envs).wiserNetworkData = none ∧
      getWiserHubName (refreshSeq envs) = .error .AttributeError ∧
      getMACAddress (refreshSeq envs) = .error .AttributeError) := by
  have h1 : ∀ st env, (refreshData st env).1.wiserNetworkData = st.wiserNetworkData := by
    intro st env
    obtain ⟨d, n⟩ := env
    cases d with
    | timeout => rfl
    | connError => rfl
    | ok status doc =>
      by_cases h : 400 ≤ status
      · simp [refreshData, h]
      · cases n <;> simp [refreshData, h]
  refine ⟨h1, ?_, ?_⟩
  · intro st env status doc nstatus net hd hs hn
    simp [refreshData, hd, hn, Nat.not_le.mpr hs]
  · intro envs
    have key : ∀ (l : List RefreshEnv) (st : WiserHubState),
        (l.foldl (fun s e => (refreshData s e).1) st).wiserNetworkData =
          st.wiserNetworkData := by
      intro l
      induction l with
      | nil => intro st; rfl
      | cons e rest ih => intro st; rw [List.foldl_cons, ih, h1]
    have hnone : (refreshSeq envs).wiserNetworkData = none := key envs initState
    exact ⟨hnone, by simp [getWiserHubName, hnone], by simp [getMACAddress, hnone]⟩

/-- C10 witness: the theorem applied to two concrete successful refreshes.
The capitalised attribute receives the fetched network document while the
lowercase one the accessors read stays `None`. -/
theorem wiserNetworkData_never_populated_witness :
    (refreshData initState envA).1.WiserNetworkData = some netA ∧
    (refreshSeq [envA, envB]).wiserNetworkData = none ∧
    getWiserHubName (refreshSeq [envA, envB]) = .error .AttributeError :=
  ⟨wiserNetworkData_never_populated.2.1 initState envA 200 docA 200 netA rfl
     (by norm_num) rfl,
   (wiserNetworkData_never_populated.2.2 [envA, envB]).1,
   (wiserNetworkData_never_populated.2.2 [envA, envB]).2.1⟩

/-- When a document is cached, `checkHubData` is a no-op that succeeds. -/
theorem checkHubData_cached (st : WiserHubState) (env : RefreshEnv) (doc : HubDoc)
    (hdoc : st.wiserHubData = some doc) : checkHubData st env = (st, .ok ()) := by
  simp [checkHubData, hdoc]

/-- C8 counterexample: with a present-but-empty `Room` section, `getRoom`
raises `WiserNotFound`, not the claimed section-specific
`WiserNoRoomsFound`; and with an absent `Device` section, `getDevice`
raises `WiserNoRoomsFound` — the rooms error, not a device-specific one. -/
theorem getRoom_empty_section_cex :
    getRoom stEmptyRooms envA 1 = (stEmptyRooms, .error .WiserNotFound) ∧
    getDevice stDocA envA 7 = (stDocA, .error .WiserNoRoomsFound) :=
  ⟨rfl, rfl⟩

/-- C8 (amended): the by-id accessors raise their `NoXFound`-style error
only when the section is absent (`None`), while a present-but-empty
section falls through to `WiserNotFound` exactly like a present section
without the requested id; and the error `getDevice` raises for an absent
section is `WiserNoRoomsFound`, not a device-specific kind. -/
theorem getRoom_getDevice_absence_cases (st : WiserHubState) (env : RefreshEnv)
    (doc : HubDoc) (xid : Int) (hdoc : st.wiserHubData = some doc) :
    (doc.Room = none → getRoom st env xid = (st, .error .WiserNoRoomsFound)) ∧
    (∀ rooms, doc.Room = some rooms → (∀ r ∈ rooms, r.id ≠ some xid) →
      getRoom st env xid = (st, .error .WiserNotFound)) ∧
    (doc.Device = none → getDevice st env xid = (st, .error .WiserNoRoomsFound)) ∧
    (∀ devs, doc.Device = some devs → (∀ d ∈ devs, d.id ≠ some xid) →
      getDevice st env xid = (st, .error .WiserNotFound)) := by
  have hc := checkHubData_cached st env doc hdoc
  refine ⟨?_, ?_, ?_, ?_⟩
  · intro hr
    simp [getRoom, hc, hdoc, hr]
  · intro rooms hr hmiss
    have hfind : rooms.find? (fun r => r.id = some xid) = none := by
      rw [List.find?_eq_none]
      intro r hrm
      simpa using hmiss r hrm
    simp [getRoom, hc, hdoc, hr, hfind]
  · intro hd
    simp [getDevice, hc, hdoc, hd]
  · intro devs hd hmiss
    have hfind : devs.find? (fun d => d.id = some xid) = none := by
      rw [List.find?_eq_none]
      intro d hdm
      simpa using hmiss d hdm
    simp [getDevice, hc, hdoc, hd, hfind]

/-- C8 witness: the amended theorem applied to the empty-rooms document. -/
theorem getRoom_getDevice_absence_witness :
    stEmptyRooms.wiserHubData = some docEmptyRooms ∧
    getRoom stEmptyRooms envA 3 = (stEmptyRooms, .error .WiserNotFound) ∧
    getDevice stEmptyRooms envA 3 = (stEmptyRooms, .error .WiserNoRoomsFound) :=
  ⟨rfl,
   (getRoom_getDevice_absence_cases stEmptyRooms envA docEmptyRooms 3 rfl).2.1 []
     rfl (by simp),
   (getRoom_getDevice_absence_cases stEmptyRooms envA docEmptyRooms 3 rfl).2.2.1 rfl⟩

/-- C4 counterexample: with no cached document and a transport timeout,
`getHeatingRelayStatus` raises (`checkHubData` is reached through
`getHeatingChannels`, so the ensure-fresh check is not bypassed); and with
a cached document lacking the `HeatingChannel` section it raises
`TypeError` instead of returning `"Off"`. -/
theorem getHeatingRelayStatus_fails_cex :
    initState.wiserHubData = none ∧
    getHeatingRelayStatus initState envTimeout =
      (initState, .error .WiserHubTimeoutException) ∧
    getHeatingRelayStatus stDocA envA = (stDocA, .error .TypeError) :=
  ⟨rfl, rfl, rfl⟩

/-- C4 (amended): `getHeatingRelayStatus` reaches the ensure-fresh check
through `getHeatingChannels`, so it can fail when no document is cached;
on a cached document whose `HeatingChannel` section is present it returns
`"On"` exactly when some channel's `HeatingRelayState` is `"On"` — a
logical OR across channels — and `"Off"` when all are `"Off"` or the list
is empty; when the section is absent it raises `TypeError`. -/
theorem getHeatingRelayStatus_or_across_channels (st : WiserHubState)
    (env : RefreshEnv) (doc : HubDoc) (hdoc : st.wiserHubData = some doc) :
    (∀ chans, doc.HeatingChannel = some chans →
      getHeatingRelayStatus st env =
        (st, .ok (if chans.any (fun c => c.HeatingRelayState = some "On")
                  then "On" else "Off"))) ∧
    (doc.HeatingChannel = none →
      getHeatingRelayStatus st env = (st, .error .TypeError)) := by
  have hc := checkHubData_cached st env doc hdoc
  constructor
  · intro chans hch
    simp [getHeatingRelayStatus, getHeatingChannels, hc, hdoc, hch,
      relay_foldl_eq_any]
  · intro hch
    simp [getHeatingRelayStatus, getHeatingChannels, hc, hdoc, hch]

/-- C4 witness: the amended theorem applied to a document with one `"Off"`
and one `"On"` channel. -/
theorem getHeatingRelayStatus_or_witness :
    stHeat.wiserHubData = some docHeat ∧
    getHeatingRelayStatus stHeat envA =
      (stHeat, .ok (if ([⟨some 1, some "Off"⟩, ⟨some 2, some "On"⟩] :
          List HeatingChannelRec).any (fun c => c.HeatingRelayState = some "On")
        then "On" else "Off")) :=
  ⟨rfl, (getHeatingRelayStatus_or_across_channels stHeat envA docHeat rfl).1 _ rfl⟩

/-- C7: in `manual` mode, when the cached `ScheduledSetPoint` decodes
below the 5 °C minimum, the manual override PATCH carries the minimum
(whose hub encoding is 50), not the scheduled value; the cancellation
PATCH precedes it. -/
theorem setRoomMode_manual_clamped (st st' : WiserHubState) (env : RefreshEnv)
    (ps : Nat → Nat) (hubIP : String) (roomId : Int) (mode : String)
    (bt : ℚ) (btt : Int) (room : RoomRec) (ssp : Int)
    (hm : pyLower mode = "manual")
    (hroom : getRoom st env roomId = (st', .ok room))
    (hssp : room.ScheduledSetPoint = some ssp)
    (hlow : fromWiserTemp ssp < TEMP_MINIMUM)
    (hps : ps 0 = 200) :
    (setRoomMode st env ps hubIP roomId mode bt btt).2.1 =
      [{ url := WISERROOM hubIP roomId, body := cancelBoostPostData },
       { url := WISERROOM hubIP roomId, body := manualPatchData TEMP_MINIMUM }] ∧
    toWiserTemp TEMP_MINIMUM = 50 := by
  constructor
  · by_cases h1 : ps 1 = 200 <;>
      simp [setRoomMode, hm, hroom, hssp, sendRoomPatches, not_le.mpr hlow, hps, h1]
  · norm_num [toWiserTemp, pyInt, TEMP_MINIMUM]

/-- C7 witness: the theorem applied to a room whose cached scheduled
set-point is the hub value 30, i.e. 3.0 °C. -/
theorem setRoomMode_manual_clamped_witness :
    pyLower "manual" = "manual" ∧
    getRoom stHeat envA 2 = (stHeat, .ok roomC) ∧
    roomC.ScheduledSetPoint = some 30 ∧
    fromWiserTemp 30 < TEMP_MINIMUM ∧
    (setRoomMode stHeat envA (fun _ => 200) "192.168.1.2" 2 "manual" 20 30).2.1 =
      [{ url := WISERROOM "192.168.1.2" 2, body := cancelBoostPostData },
       { url := WISERROOM "192.168.1.2" 2, body := manualPatchData TEMP_MINIMUM }] := by
  have hlow : fromWiserTemp 30 < TEMP_MINIMUM := by
    norm_num [fromWiserTemp, pyRound1, pyRound, TEMP_MINIMUM]
  exact ⟨by decide, rfl, rfl, hlow,
    (setRoomMode_manual_clamped stHeat stHeat envA (fun _ => 200) "192.168.1.2" 2
      "manual" 20 30 roomC 30 (by decide) rfl rfl hlow rfl).1⟩

/-- C5: `setRoomMode` with mode `boost` (and an in-range boost
temperature) issues exactly one PATCH — the boost override, with no
cancellation before it; with any other recognised mode the zero-duration,
zero-setpoint cancellation PATCH is issued first, and the mode-specific
PATCH is sent only if the cancellation completed with status 200 (on any
other status the call stops after the cancellation and raises), so `auto`
and `off` issue exactly two PATCHes, cancellation first, and `manual`
likewise once the room lookup has succeeded. -/
theorem setRoomMode_patch_protocol (st : WiserHubState) (env : RefreshEnv)
    (ps : Nat → Nat) (hubIP : String) (roomId : Int) (mode : String)
    (bt : ℚ) (btt : Int) :
    (pyLower mode = "boost" → TEMP_MINIMUM ≤ bt → bt ≤ TEMP_MAXIMUM →
      (setRoomMode st env ps hubIP roomId mode bt btt).2.1 =
        [{ url := WISERROOM hubIP roomId, body := boostPatchData btt bt }]) ∧
    (pyLower mode = "auto" →
      (ps 0 = 200 →
        (setRoomMode st env ps hubIP roomId mode bt btt).2.1 =
          [{ url := WISERROOM hubIP roomId, body := cancelBoostPostData },
           { url := WISERROOM hubIP roomId, body := autoPatchData }]) ∧
      (ps 0 ≠ 200 →
        (setRoomMode st env ps hubIP roomId mode bt btt).2.1 =
          [{ url := WISERROOM hubIP roomId, body := cancelBoostPostData }] ∧
        (setRoomMode st env ps hubIP roomId mode bt btt).2.2 =
          .error .WiserRESTException)) ∧
    (pyLower mode = "off" →
      (ps 0 = 200 →
        (setRoomMode st env ps hubIP roomId mode bt btt).2.1 =
          [{ url := WISERROOM hubIP roomId, body := cancelBoostPostData },
           { url := WISERROOM hubIP roomId, body := offPatchData }]) ∧
      (ps 0 ≠ 200 →
        (setRoomMode st env ps hubIP roomId mode bt btt).2.1 =
          [{ url := WISERROOM hubIP roomId, body := cancelBoostPostData }] ∧
        (setRoomMode st env ps hubIP roomId mode bt btt).2.2 =
          .error .WiserRESTException)) ∧
    (∀ st' room, pyLower mode = "manual" →
      getRoom st env roomId = (st', .ok room) →
      ∀ ssp, room.ScheduledSetPoint = some ssp →
      ((setRoomMode st env ps hubIP roomId mode bt btt).2.1).head? =
        some { url := WISERROOM hubIP roomId, body := cancelBoostPostData } ∧
      (ps 0 ≠ 200 →
        (setRoomMode st env ps hubIP roomId mode bt btt).2.1 =
          [{ url := WISERROOM hubIP roomId, body := cancelBoostPostData }])) := by
  refine ⟨?_, ?_, ?_, ?_⟩
  · intro hm h1 h2
    by_cases h0 : ps 0 = 200 <;>
      simp [setRoomMode, hm, sendRoomPatches, not_lt.mpr h1, not_lt.mpr h2, h0]
  · intro hm
    constructor
    · intro h0
      by_cases h1 : ps 1 = 200 <;> simp [setRoomMode, hm, sendRoomPatches, h0, h1]
    · intro h0
      simp [setRoomMode, hm, sendRoomPatches, h0]
  · intro hm
    constructor
    · intro h0
      by_cases h1 : ps 1 = 200 <;> simp [setRoomMode, hm, sendRoomPatches, h0, h1]
    · intro h0
      simp [setRoomMode, hm, sendRoomPatches, h0]
  · intro st' room hm hroom ssp hssp
    constructor
    · by_cases h0 : ps 0 = 200
      · by_cases h1 : ps 1 = 200 <;>
          simp [setRoomMode, hm, hroom, hssp, sendRoomPatches, h0, h1]
      · simp [setRoomMode, hm, hroom, hssp, sendRoomPatches, h0]
    · intro h0
      simp [setRoomMode, hm, hroom, hssp, sendRoomPatches, h0]

/-- C5 witness: the theorem applied to a boost call at 22 °C for 30
minutes (one PATCH, no cancellation) and an auto call (two PATCHes,
cancellation first). -/
theorem setRoomMode_patch_protocol_witness :
    pyLower "boost" = "boost" ∧ TEMP_MINIMUM ≤ (22:ℚ) ∧ (22:ℚ) ≤ TEMP_MAXIMUM ∧
    (setRoomMode stDocA envA (fun _ => 200) "192.168.1.2" 1 "boost" 22 30).2.1 =
      [{ url := WISERROOM "192.168.1.2" 1, body := boostPatchData 30 22 }] ∧
    (setRoomMode stDocA envA (fun _ => 200) "192.168.1.2" 1 "auto" 22 30).2.1 =
      [{ url := WISERROOM "192.168.1.2" 1, body := cancelBoostPostData },
       { url := WISERROOM "192.168.1.2" 1, body := autoPatchData }] := by
  have hmin : TEMP_MINIMUM ≤ (22:ℚ) := by norm_num [TEMP_MINIMUM]
  have hmax : (22:ℚ) ≤ TEMP_MAXIMUM := by norm_num [TEMP_MAXIMUM]
  exact ⟨by decide, hmin, hmax,
    (setRoomMode_patch_protocol stDocA envA (fun _ => 200) "192.168.1.2" 1
      "boost" 22 30).1 (by decide) hmin hmax,
    ((setRoomMode_patch_protocol stDocA envA (fun _ => 200) "192.168.1.2" 1
      "auto" 22 30).2.1 (by decide)).1 rfl⟩

/-- C3 counterexample: refresh with a document whose single room has
room-stat id 7, then refresh again with a document in which no room
mentions device 7; the index still maps key 7, so a key from an earlier
document survives a refresh whose document no longer contains its
device. -/
theorem device2roomMap_stale_key_cex :
    dictLookup 7 ((refreshData (refreshData initState envA).1 envB).1.device2roomMap) =
      some { roomId := some 1, roomName := some "Lounge" } ∧
    docDeviceIds docB = [] :=
  ⟨rfl, rfl⟩

/-- C3 (amended): on a successful refresh the device-to-room index is
updated in place from the new document rather than rebuilt from scratch:
afterwards a device id is a key of the index exactly when it appears in
some room's `RoomStatId` or `SmartValveIds` of the new document or it was
already a key before the refresh — stale keys are never removed. -/
theorem refreshData_index_accumulates (st : WiserHubState) (env : RefreshEnv)
    (status : Nat) (doc : HubDoc)
    (h1 : env.domainResp = .ok status doc) (h2 : status < 400) (k : Int) :
    dictLookup k ((refreshData st env).1.device2roomMap) ≠ none ↔
      (k ∈ docDeviceIds doc ∨ dictLookup k st.device2roomMap ≠ none) := by
  have hmap : (refreshData st env).1.device2roomMap =
      rebuildMap st.device2roomMap doc := by
    rcases hn : env.networkResp with _ | _ | ⟨ns, nb⟩ <;>
      simp [refreshData, h1, hn, Nat.not_le.mpr h2]
  rw [hmap, dictLookup_rebuildMap]

/-- C3 witness: the amended theorem applied to the second refresh of the
counterexample run. -/
theorem refreshData_index_accumulates_witness :
    envB.domainResp = .ok 200 docB ∧ 200 < 400 ∧
    (dictLookup 7 ((refreshData (refreshData initState envA).1 envB).1.device2roomMap) ≠ none ↔
      (7 ∈ docDeviceIds docB ∨
        dictLookup 7 (refreshData initState envA).1.device2roomMap ≠ none)) :=
  ⟨rfl, by norm_num,
   refreshData_index_accumulates (refreshData initState envA).1 envB 200 docB
     rfl (by norm_num) 7⟩
